import Mathlib

/-!
Verification of the workflow-orchestration core of the code-diffusion
repository: the workflow state machine (`workflow-state-machine.ts`),
the agent spawner (`agent-spawner.ts`), the workflow error handler
(`workflow-error-handler.ts`) and the agent flow coordinator
(`agent-flow-coordinator.ts`), shallowly embedded as pure functions.

Conventions of the embedding:
* JavaScript `Map`s and plain-object records become association lists
  (`List (String × α)`) with `mapSet` giving `Map.set` / property-assignment
  semantics (replace in place if the key exists, otherwise append).
* `Date` timestamps become `Nat` values supplied by the caller (`now`).
* `Math.random` jitter and the random agent-id suffix become explicit
  parameters (`jitter : Nat`, `rand : String`).
* Thrown exceptions become `Except` / `Option` error values.  TypeScript
  mutates objects in place and then throws, so coordinator operations
  return `Coordinator × Option CoordError`: the state component carries
  every mutation performed before the throw, exactly as the live objects
  would in the source.
* The external Notion persistence collaborator is modelled as an
  append-only log of status updates (its calls always succeed; the
  claims under study do not concern its failures).
-/

namespace CodeDiffusion

/-- The workflow stage enum (`WorkflowStatus` in the source; the spec
names the `bootstrapping` stage "exploring"). -/
inductive WorkflowState
  | pending
  | bootstrapping
  | planning
  | implementing
  | complete
  | blocked
deriving DecidableEq

/-- The legal-transition table `VALID_TRANSITIONS` of
`workflow-state-machine.ts`. -/
def VALID_TRANSITIONS : WorkflowState → List WorkflowState
  | .pending => [.bootstrapping, .blocked]
  | .bootstrapping => [.planning, .blocked, .pending]
  | .planning => [.implementing, .blocked, .bootstrapping]
  | .implementing => [.complete, .blocked, .planning]
  | .complete => []
  | .blocked => [.pending, .bootstrapping, .planning, .implementing]

/-- Values stored in the free-form metadata records
(`Record<string, unknown>` in the source): strings, timestamps, and the
`{ agentType, reason }` object stored under `lastFailure`. -/
inductive MetaValue
  | str (s : String)
  | time (t : Nat)
  | failure (agentType reason : String)
deriving DecidableEq

/-- A JavaScript plain-object record with `MetaValue` values. -/
abbrev Metadata := List (String × MetaValue)

/-- `Map.set` / record-assignment semantics on an association list:
replace the first binding of the key in place, else append at the end. -/
def mapSet {α : Type} (m : List (String × α)) (k : String) (v : α) :
    List (String × α) :=
  match m with
  | [] => [(k, v)]
  | (k', v') :: rest =>
      if k' == k then (k, v) :: rest else (k', v') :: mapSet rest k v

/-- `Map.delete` semantics on an association list. -/
def mapDelete {α : Type} (m : List (String × α)) (k : String) :
    List (String × α) :=
  m.filter (fun p => !(p.1 == k))

/-- The object spread `{ ...old, ...new }`: keys of `new` win; keys only
in `old` keep their binding. -/
def mergeMeta (old new : Metadata) : Metadata :=
  old.filter (fun p => !(new.any (fun q => q.1 == p.1))) ++ new

/-- `StateTransition` of `workflow-state-machine.ts` (field `from` is
spelled `from'` because `from` is reserved in Lean). -/
structure StateTransition where
  from' : WorkflowState
  to' : WorkflowState
  timestamp : Nat
  metadata : Option Metadata
deriving DecidableEq

/-- `WorkflowStateData` of `workflow-state-machine.ts`. -/
structure WorkflowStateData where
  workflowId : String
  currentState : WorkflowState
  previousState : Option WorkflowState
  history : List StateTransition
  createdAt : Nat
  updatedAt : Nat
  metadata : Metadata
deriving DecidableEq

/-- The `WorkflowStateMachine`'s private `states` map. -/
abbrev StateMachine := List (String × WorkflowStateData)

/-- Errors thrown by `WorkflowStateMachine.transition` (the spec's
`NotFound` and `InvalidTransition`). -/
inductive SMError
  | notFound (id : String)
  | invalidTransition (id : String) (from' to' : WorkflowState)
deriving DecidableEq

/-- `WorkflowStateMachine.initializeWorkflow`: unconditionally `set`s a
fresh `WorkflowStateData` with empty history and metadata (the source
performs no already-tracked check). -/
def initWorkflow (m : StateMachine) (workflowId : String)
    (initialState : WorkflowState) (now : Nat) : StateMachine :=
  mapSet m workflowId
    { workflowId := workflowId
      currentState := initialState
      previousState := none
      history := []
      createdAt := now
      updatedAt := now
      metadata := [] }

/-- `WorkflowStateMachine.getState`. -/
def getState (m : StateMachine) (workflowId : String) :
    Option WorkflowStateData :=
  m.lookup workflowId

/-- `WorkflowStateMachine.validateTransition`. -/
def validateTransition (from' to' : WorkflowState) : Bool :=
  (VALID_TRANSITIONS from').contains to'

/-- The successful branch of `WorkflowStateMachine.transition`: append
one transition record, set previous/current state, bump `updatedAt`,
spread the supplied metadata over the run's metadata. -/
def appliedTransition (stateData : WorkflowStateData)
    (toState : WorkflowState) (md : Option Metadata) (now : Nat) :
    WorkflowStateData :=
  { stateData with
      previousState := some stateData.currentState
      currentState := toState
      history :=
        stateData.history ++
          [{ from' := stateData.currentState, to' := toState
             timestamp := now, metadata := md }]
      updatedAt := now
      metadata :=
        match md with
        | some mm => mergeMeta stateData.metadata mm
        | none => stateData.metadata }

/-- `WorkflowStateMachine.transition`: not-found check, then validation,
and only then the mutation. -/
def transition (m : StateMachine) (workflowId : String)
    (toState : WorkflowState) (md : Option Metadata) (now : Nat) :
    Except SMError (StateMachine × WorkflowStateData) :=
  match m.lookup workflowId with
  | none => .error (.notFound workflowId)
  | some stateData =>
      if validateTransition stateData.currentState toState then
        let newData := appliedTransition stateData toState md now
        .ok (mapSet m workflowId newData, newData)
      else
        .error (.invalidTransition workflowId stateData.currentState toState)

/-- `WorkflowStateMachine.isBlocked`. -/
def isBlocked (m : StateMachine) (workflowId : String) : Bool :=
  match m.lookup workflowId with
  | some d => d.currentState == .blocked
  | none => false

/-- `WorkflowStateMachine.getHistory`. -/
def getHistory (m : StateMachine) (workflowId : String) :
    List StateTransition :=
  ((m.lookup workflowId).map (·.history)).getD []

/-- `WorkflowStateMachine.removeWorkflow`. -/
def removeWorkflow (m : StateMachine) (workflowId : String) :
    StateMachine × Bool :=
  (mapDelete m workflowId, (m.lookup workflowId).isSome)

/-! ## Agent spawner (`agent-spawner.ts`) -/

/-- `AgentConfig` (the nested `config.skills` / `config.mcps` flattened
into the structure). -/
structure AgentConfig where
  type' : String
  workflowId : Option String
  taskId : Option String
  skills : List String
  mcps : List String
deriving DecidableEq

/-- `SpawnedAgent` (the OS process handle itself is outside the model;
exit/error/kill arrive as external events). -/
structure SpawnedAgent where
  id : String
  type' : String
  startTime : Nat
deriving DecidableEq

/-- The `AgentSpawner`'s private `activeAgents` map. -/
structure AgentSpawner where
  activeAgents : List (String × SpawnedAgent)
deriving DecidableEq

/-- `AgentSpawner.maxConcurrentAgents` (fixed at 10). -/
def maxConcurrentAgents : Nat := 10

/-- JavaScript `a || b` on optional strings: the empty string is falsy. -/
def jsOrElse (a : Option String) (b : String) : String :=
  match a with
  | some s => if s == "" then b else s
  | none => b

/-- `AgentSpawner.generateAgentId`:
`type-workflowOrTaskOrUnknown-timestamp-random`. -/
def generateAgentId (cfg : AgentConfig) (now : Nat) (rand : String) :
    String :=
  cfg.type' ++ "-" ++ jsOrElse cfg.workflowId (jsOrElse cfg.taskId "unknown")
    ++ "-" ++ toString now ++ "-" ++ rand

/-- The error thrown by `spawnAgent` at the concurrency ceiling
(`'Max concurrent agents reached'`, the spec's `CapacityExceeded`). -/
inductive SpawnErr
  | capacityExceeded
deriving DecidableEq

/-- `AgentSpawner.spawnAgent`: rejects before registering anything when
the active-handle count has reached the ceiling; otherwise registers the
new handle and returns its id. -/
def spawnAgent (s : AgentSpawner) (cfg : AgentConfig) (now : Nat)
    (rand : String) : Except SpawnErr (AgentSpawner × String) :=
  let agentId := generateAgentId cfg now rand
  if s.activeAgents.length ≥ maxConcurrentAgents then
    .error .capacityExceeded
  else
    .ok
      ({ activeAgents :=
          mapSet s.activeAgents agentId
            { id := agentId, type' := cfg.type', startTime := now } },
        agentId)

/-- `AgentSpawner.handleAgentExit`: drop the handle. -/
def handleAgentExit (s : AgentSpawner) (agentId : String) : AgentSpawner :=
  { activeAgents := mapDelete s.activeAgents agentId }

/-- `AgentSpawner.handleAgentError`: drop the handle. -/
def handleAgentError (s : AgentSpawner) (agentId : String) : AgentSpawner :=
  { activeAgents := mapDelete s.activeAgents agentId }

/-- `AgentSpawner.killAgent` sends signals but removes nothing itself
(removal happens in the exit/error observers); it only reports whether
the id was tracked. -/
def killAgent (s : AgentSpawner) (agentId : String) :
    AgentSpawner × Bool :=
  (s, (s.activeAgents.lookup agentId).isSome)

/-- The external events the supervisor reacts to: spawn requests and
process exit / error / kill notifications. -/
inductive SpawnerEvent
  | spawnEv (cfg : AgentConfig) (now : Nat) (rand : String)
  | exitEv (agentId : String)
  | errorEv (agentId : String)
  | killEv (agentId : String)

/-- One supervisor step: a failed spawn leaves the tracked set
untouched. -/
def stepSpawner (s : AgentSpawner) (e : SpawnerEvent) : AgentSpawner :=
  match e with
  | .spawnEv cfg now rand =>
      match spawnAgent s cfg now rand with
      | .ok (s', _) => s'
      | .error _ => s
  | .exitEv agentId => handleAgentExit s agentId
  | .errorEv agentId => handleAgentError s agentId
  | .killEv agentId => (killAgent s agentId).1

/-! ## Error handler (`workflow-error-handler.ts`) -/

/-- `ErrorContext` (`error` is represented by its message text, which is
all `handleError` inspects). -/
structure ErrorContext where
  workflowId : String
  stage : WorkflowState
  errorMessage : String
  attemptNumber : Nat
  maxAttempts : Nat
deriving DecidableEq

/-- `RecoveryStrategy`. -/
inductive RecoveryStrategy
  | retry
  | skip
  | block
  | rollback
deriving DecidableEq

/-- `ErrorHandlingResult`. -/
structure ErrorHandlingResult where
  shouldRetry : Bool
  strategy : RecoveryStrategy
  retryDelay : Option Nat
  message : String
deriving DecidableEq

/-- The `WorkflowErrorHandler`'s private `errorCounts` map. -/
structure WorkflowErrorHandler where
  errorCounts : List (String × Nat)
deriving DecidableEq

/-- `WorkflowErrorHandler.maxRetries`. -/
def maxRetries : Nat := 3

/-- `WorkflowErrorHandler.baseDelay` (1 second). -/
def baseDelay : Nat := 1000

/-- Whether `pat` matches `s` starting at its head. -/
def leadMatch : List Char → List Char → Bool
  | [], _ => true
  | _ :: _, [] => false
  | p :: ps, c :: cs => p == c && leadMatch ps cs

/-- Whether `pat` occurs somewhere in `s` (substring search; the
regexes in `isRecoverableError` are all plain literals). -/
def hasSub (pat : List Char) : List Char → Bool
  | [] => pat.isEmpty
  | c :: cs => leadMatch pat (c :: cs) || hasSub pat cs

/-- The transient-failure signatures of
`WorkflowErrorHandler.isRecoverableError`, lower-cased (the source
lower-cases the message and all its regexes are case-insensitive). -/
def recoverablePatterns : List String :=
  ["econnrefused", "etimedout", "enotfound", "rate limit", "timeout",
   "network", "temporary"]

/-- `WorkflowErrorHandler.isRecoverableError`: does any transient
signature occur in the lower-cased message? -/
def isRecoverableError (msg : String) : Bool :=
  recoverablePatterns.any
    (fun p => hasSub p.toList (msg.toList.map Char.toLower))

/-- `WorkflowErrorHandler.calculateBackoff`:
`min(baseDelay * 2^attempt + jitter, 30000)` with the caller-supplied
jitter standing in for `Math.random() * 1000`. -/
def calculateBackoff (attemptNumber jitter : Nat) : Nat :=
  min (baseDelay * 2 ^ attemptNumber + jitter) 30000

/-- The stage names used to build error keys (`WorkflowStatus` string
values). -/
def stageName : WorkflowState → String
  | .pending => "pending"
  | .bootstrapping => "bootstrapping"
  | .planning => "planning"
  | .implementing => "implementing"
  | .complete => "complete"
  | .blocked => "blocked"

/-- The `` `${workflowId}-${stage}` `` error key. -/
def errorKey (workflowId : String) (stage : WorkflowState) : String :=
  workflowId ++ "-" ++ stageName stage

/-- `WorkflowErrorHandler.handleError`: classify, bump the
per-(workflow,stage) counter, and return a retry verdict with backoff or
a block verdict. -/
def handleError (h : WorkflowErrorHandler) (ctx : ErrorContext)
    (jitter : Nat) : WorkflowErrorHandler × ErrorHandlingResult :=
  let isRec := isRecoverableError ctx.errorMessage
  let shouldRetry := isRec && decide (ctx.attemptNumber < maxRetries)
  let key := errorKey ctx.workflowId ctx.stage
  let errorCount := ((h.errorCounts.lookup key).getD 0) + 1
  let h' : WorkflowErrorHandler :=
    { errorCounts := mapSet h.errorCounts key errorCount }
  if shouldRetry then
    let retryDelay := calculateBackoff ctx.attemptNumber jitter
    (h',
      { shouldRetry := true
        strategy := .retry
        retryDelay := some retryDelay
        message :=
          "Retrying after " ++ toString retryDelay ++ "ms (attempt "
            ++ toString (ctx.attemptNumber + 1) ++ "/"
            ++ toString maxRetries ++ ")" })
  else
    (h',
      { shouldRetry := false
        strategy := .block
        retryDelay := none
        message :=
          "Workflow blocked at " ++ stageName ctx.stage ++ ": "
            ++ ctx.errorMessage })

/-- `WorkflowErrorHandler.getErrorCount`. -/
def getErrorCount (h : WorkflowErrorHandler) (workflowId : String)
    (stage : WorkflowState) : Nat :=
  (h.errorCounts.lookup (errorKey workflowId stage)).getD 0

/-- The `key.split('-')[0] || ''` grouping key used by
`getStatistics`: the part of the error key before its first hyphen. -/
def keyGroupChars : List Char → List Char
  | [] => []
  | c :: cs => if c == '-' then [] else c :: keyGroupChars cs

/-- Grouping key of an error key, as a string. -/
def keyGroup (key : String) : String :=
  String.mk (keyGroupChars key.toList)

/-- One step of the `errorsByWorkflow` accumulation in
`getStatistics`: `errorsByWorkflow[g] = (errorsByWorkflow[g] || 0) + count`. -/
def statStep (acc : List (String × Nat)) (kv : String × Nat) :
    List (String × Nat) :=
  mapSet acc (keyGroup kv.1) (((acc.lookup (keyGroup kv.1)).getD 0) + kv.2)

/-- `WorkflowErrorHandler.getStatistics`: the total of all counters, and
the counters re-grouped under `keyGroup`. -/
def getStatistics (h : WorkflowErrorHandler) :
    Nat × List (String × Nat) :=
  (h.errorCounts.foldl (fun s kv => s + kv.2) 0,
    h.errorCounts.foldl statStep [])

/-! ## Flow coordinator (`agent-flow-coordinator.ts`) -/

/-- `BootstrapperOutput`, with each field optional so that JavaScript
truthiness of possibly-missing fields is expressible: an object field is
truthy iff present, a string field is truthy iff present and
non-empty. -/
structure BootstrapperOutput where
  codebaseAnalysis : Option (List (String × String))
  workflowSpec : Option (List (String × String))
  suggestedApproach : Option String
  estimatedComplexity : Option String
deriving DecidableEq

/-- `ImplementerOutput`. -/
structure ImplementerOutput where
  filesModified : List String
  testsPassed : Bool
  summary : String
deriving DecidableEq

/-- `WorkflowContext` (the planner output field never receives a value
in the source and is omitted). -/
structure WorkflowContext where
  workflowId : String
  currentStage : WorkflowState
  bootstrapperOutput : Option BootstrapperOutput
  implementerOutput : Option ImplementerOutput
  metadata : Metadata
deriving DecidableEq

/-- Errors surfaced by coordinator operations: propagated state-machine
and spawner errors, plus the coordinator's own `not found`,
`is not blocked` and `Cannot retry from stage` throws. -/
inductive CoordError
  | sm (e : SMError)
  | spawnFail (e : SpawnErr)
  | contextNotFound (id : String)
  | notBlocked (id : String)
  | cannotRetryFrom (st : WorkflowState)
deriving DecidableEq

/-- The `AgentFlowCoordinator`'s state: its state machine, spawner,
context map, and the log of `updateWorkflowStatus` calls made to the
external Notion collaborator. -/
structure Coordinator where
  stateMachine : StateMachine
  agentSpawner : AgentSpawner
  workflowContexts : List (String × WorkflowContext)
  notionUpdates : List (String × WorkflowState)
deriving DecidableEq

/-- A coordinator operation's outcome: the coordinator state after all
mutations performed up to the return or throw, plus the thrown error if
any (TypeScript keeps in-place mutations made before a throw). -/
abbrev CoordResult := Coordinator × Option CoordError

/-- Sequencing that stops at the first thrown error but keeps the state
mutated so far. -/
def coordAndThen (r : CoordResult) (f : Coordinator → CoordResult) :
    CoordResult :=
  match r with
  | (c, none) => f c
  | (c, some e) => (c, some e)

/-- The `context.currentStage = ...; this.workflowContexts.set(...)`
update performed inside each stage-transition helper (a no-op when the
context is untracked, matching the source's `if (context)` guard). -/
def updateCtxStage (c : Coordinator) (workflowId : String)
    (st : WorkflowState) : Coordinator :=
  match c.workflowContexts.lookup workflowId with
  | some ctx =>
      { c with
          workflowContexts :=
            mapSet c.workflowContexts workflowId
              { ctx with currentStage := st } }
  | none => c

/-- `notionService.updateWorkflowStatus`, modelled as a log append. -/
def notionUpdate (c : Coordinator) (workflowId : String)
    (st : WorkflowState) : Coordinator :=
  { c with notionUpdates := c.notionUpdates ++ [(workflowId, st)] }

/-- Run `WorkflowStateMachine.transition` inside the coordinator. -/
def smTransition (c : Coordinator) (workflowId : String)
    (toState : WorkflowState) (md : Option Metadata) (now : Nat) :
    CoordResult :=
  match transition c.stateMachine workflowId toState md now with
  | .ok (m, _) => ({ c with stateMachine := m }, none)
  | .error e => (c, some (.sm e))

/-- Run `AgentSpawner.spawnAgent` inside the coordinator. -/
def coordSpawn (c : Coordinator) (cfg : AgentConfig) (now : Nat)
    (rand : String) : CoordResult :=
  match spawnAgent c.agentSpawner cfg now rand with
  | .ok (s, _) => ({ c with agentSpawner := s }, none)
  | .error e => (c, some (.spawnFail e))

/-- `AgentFlowCoordinator.transitionToBootstrapping`: state-machine
transition (unless `skipTransition`), context update, Notion update,
then spawn the bootstrapper agent. -/
def transitionToBootstrapping (c : Coordinator) (workflowId : String)
    (skipTransition : Bool) (now : Nat) (rand : String) : CoordResult :=
  let step :=
    if skipTransition then (c, none)
    else
      smTransition c workflowId .bootstrapping
        (some [("transitionedAt", .time now)]) now
  coordAndThen step fun c =>
    let c := updateCtxStage c workflowId .bootstrapping
    let c := notionUpdate c workflowId .bootstrapping
    coordSpawn c
      { type' := "bootstrapper", workflowId := some workflowId
        taskId := none
        skills := ["codebase_analysis", "architecture_detection"]
        mcps := ["codebase_search", "file_operations"] }
      now rand

/-- `AgentFlowCoordinator.transitionToImplementing`: state-machine
transition, context update, Notion update, spawn the implementer agent.
No `skipTransition` parameter exists in the source. -/
def transitionToImplementing (c : Coordinator) (workflowId : String)
    (now : Nat) (rand : String) : CoordResult :=
  coordAndThen
    (smTransition c workflowId .implementing
      (some [("transitionedAt", .time now)]) now) fun c =>
    let c := updateCtxStage c workflowId .implementing
    let c := notionUpdate c workflowId .implementing
    coordSpawn c
      { type' := "implementer", workflowId := some workflowId
        taskId := none
        skills := ["coding", "testing", "debugging"]
        mcps := ["file_operations", "git_operations"] }
      now rand

/-- `AgentFlowCoordinator.transitionToPlanning`: state-machine
transition, context update, Notion update, then the documented MVP
pass-through straight into `transitionToImplementing` (no planner agent
is spawned). -/
def transitionToPlanning (c : Coordinator) (workflowId : String)
    (now : Nat) (rand : String) : CoordResult :=
  coordAndThen
    (smTransition c workflowId .planning
      (some [("transitionedAt", .time now)]) now) fun c =>
    let c := updateCtxStage c workflowId .planning
    let c := notionUpdate c workflowId .planning
    transitionToImplementing c workflowId now rand

/-- `AgentFlowCoordinator.transitionToComplete`. -/
def transitionToComplete (c : Coordinator) (workflowId : String)
    (now : Nat) : CoordResult :=
  coordAndThen
    (smTransition c workflowId .complete
      (some [("transitionedAt", .time now)]) now) fun c =>
    let c :=
      match c.workflowContexts.lookup workflowId with
      | some ctx =>
          { c with
              workflowContexts :=
                mapSet c.workflowContexts workflowId
                  { ctx with
                      currentStage := .complete
                      metadata :=
                        mapSet ctx.metadata "completedAt" (.time now) } }
      | none => c
    (notionUpdate c workflowId .complete, none)

/-- `AgentFlowCoordinator.handleAgentFailure`: transition to `blocked`
with `{ agentType, reason, failedAt }` metadata, record `lastFailure` in
the context, persist the `blocked` status. -/
def handleAgentFailure (c : Coordinator) (workflowId : String)
    (agentType reason : String) (now : Nat) : CoordResult :=
  coordAndThen
    (smTransition c workflowId .blocked
      (some
        [("agentType", .str agentType), ("reason", .str reason),
         ("failedAt", .time now)])
      now) fun c =>
    let c :=
      match c.workflowContexts.lookup workflowId with
      | some ctx =>
          { c with
              workflowContexts :=
                mapSet c.workflowContexts workflowId
                  { ctx with
                      currentStage := .blocked
                      metadata :=
                        mapSet ctx.metadata "lastFailure"
                          (.failure agentType reason) } }
      | none => c
    (notionUpdate c workflowId .blocked, none)

/-- `AgentFlowCoordinator.startWorkflow`: initialize the state machine
at `pending`, create the context, persist `pending`, then advance to
bootstrapping (which spawns the bootstrapper). -/
def startWorkflow (c : Coordinator) (workflowId : String) (now : Nat)
    (rand : String) : CoordResult :=
  let c := { c with stateMachine := initWorkflow c.stateMachine workflowId .pending now }
  let c :=
    { c with
        workflowContexts :=
          mapSet c.workflowContexts workflowId
            { workflowId := workflowId
              currentStage := .pending
              bootstrapperOutput := none
              implementerOutput := none
              metadata := [("startedAt", .time now)] } }
  let c := notionUpdate c workflowId .pending
  transitionToBootstrapping c workflowId false now rand

/-- `AgentFlowCoordinator.validateBootstrapperOutput`: JavaScript
truthiness of the four mandatory fields. -/
def validateBootstrapperOutput (output : BootstrapperOutput) : Bool :=
  output.codebaseAnalysis.isSome && output.workflowSpec.isSome
    && !((output.suggestedApproach.getD "") == "")
    && !((output.estimatedComplexity.getD "") == "")

/-- `AgentFlowCoordinator.handleBootstrapperCompletion`: on invalid
output route to the block path with reason
`'Invalid bootstrapper output'`; otherwise store the output and advance
to planning (which passes through to implementing). -/
def handleBootstrapperCompletion (c : Coordinator) (workflowId : String)
    (output : BootstrapperOutput) (now : Nat) (rand : String) :
    CoordResult :=
  if !validateBootstrapperOutput output then
    handleAgentFailure c workflowId "bootstrapper"
      "Invalid bootstrapper output" now
  else
    let c :=
      match c.workflowContexts.lookup workflowId with
      | some ctx =>
          { c with
              workflowContexts :=
                mapSet c.workflowContexts workflowId
                  { ctx with
                      bootstrapperOutput := some output
                      metadata :=
                        mapSet ctx.metadata "bootstrapperCompletedAt"
                          (.time now) } }
      | none => c
    transitionToPlanning c workflowId now rand

/-- `AgentFlowCoordinator.handleImplementerCompletion`: store the
output; on failed tests route to the block path with reason
`'Tests failed'`; otherwise advance to complete. -/
def handleImplementerCompletion (c : Coordinator) (workflowId : String)
    (output : ImplementerOutput) (now : Nat) : CoordResult :=
  let c :=
    match c.workflowContexts.lookup workflowId with
    | some ctx =>
        { c with
            workflowContexts :=
              mapSet c.workflowContexts workflowId
                { ctx with
                    implementerOutput := some output
                    metadata :=
                      mapSet ctx.metadata "implementerCompletedAt"
                        (.time now) } }
    | none => c
  if !output.testsPassed then
    handleAgentFailure c workflowId "implementer" "Tests failed" now
  else
    transitionToComplete c workflowId now

/-- `AgentFlowCoordinator.retryWorkflow`: context-presence check,
blocked check, transition `blocked → fromStage` unless already there,
then dispatch to the per-stage handler (only the bootstrapping branch
passes `skipTransition := true`; the planning and implementing branches
call helpers that transition again unconditionally). -/
def retryWorkflow (c : Coordinator) (workflowId : String)
    (fromStage : WorkflowState) (now : Nat) (rand : String) :
    CoordResult :=
  match c.workflowContexts.lookup workflowId with
  | none => (c, some (.contextNotFound workflowId))
  | some _ =>
      if !(isBlocked c.stateMachine workflowId) then
        (c, some (.notBlocked workflowId))
      else
        let currentState :=
          (getState c.stateMachine workflowId).map (·.currentState)
        let step :=
          if currentState ≠ some fromStage then
            smTransition c workflowId fromStage
              (some [("retryAt", .time now)]) now
          else (c, none)
        coordAndThen step fun c =>
          match fromStage with
          | .bootstrapping =>
              transitionToBootstrapping c workflowId true now rand
          | .planning => transitionToPlanning c workflowId now rand
          | .implementing => transitionToImplementing c workflowId now rand
          | st => (c, some (.cannotRetryFrom st))

/-- The coordinator's initial state (fresh state machine, spawner,
context map, and no persistence calls yet). -/
def emptyCoordinator : Coordinator :=
  { stateMachine := []
    agentSpawner := { activeAgents := [] }
    workflowContexts := []
    notionUpdates := [] }

/-! ## Auxiliary definitions for the verification -/

/-- The sum of the counters of the keys `getStatistics` groups under
`g`. -/
def groupTotal (g : String) (counts : List (String × Nat)) : Nat :=
  ((counts.filter (fun kv => keyGroup kv.1 == g)).map (·.2)).sum

/-- Drive one run through a list of requested target stages, ignoring
rejected transitions; returns the final machine and the number of
transitions that succeeded. -/
def applyTargets (m : StateMachine) (workflowId : String) :
    List WorkflowState → StateMachine × Nat
  | [] => (m, 0)
  | t :: ts =>
      match transition m workflowId t none 0 with
      | .ok (m', _) =>
          ((applyTargets m' workflowId ts).1,
            (applyTargets m' workflowId ts).2 + 1)
      | .error _ => applyTargets m workflowId ts

/-- The history invariant of a run: consecutive transition records are
linked (`to` of one equals `from` of the next) and the last record's
destination is the run's current stage. -/
def HistInv (run : WorkflowStateData) : Prop :=
  List.Chain' (fun a b => a.to' = b.from') run.history ∧
  ∀ t ∈ run.history.getLast?, t.to' = run.currentState

/-! ## Association-map lemmas -/

theorem lookup_mapSet_self {α : Type} (m : List (String × α)) (k : String)
    (v : α) : (mapSet m k v).lookup k = some v := by
  induction m with
  | nil => simp [mapSet, List.lookup]
  | cons p rest ih =>
      obtain ⟨k', v'⟩ := p
      by_cases h : k' = k
      · simp [mapSet, h, List.lookup]
      · simp only [mapSet, beq_iff_eq, h, if_false, List.lookup]
        have : (k == k') = false := by
          simp [beq_iff_eq]; exact fun e => h e.symm
        simp [this, ih]

theorem lookup_mapSet_ne {α : Type} (m : List (String × α)) (k k' : String)
    (v : α) (h : k' ≠ k) : (mapSet m k v).lookup k' = m.lookup k' := by
  have h0 : (k' == k) = false := by simp [beq_iff_eq, h]
  induction m with
  | nil => simp [mapSet, List.lookup, h0]
  | cons p rest ih =>
      obtain ⟨a, b⟩ := p
      by_cases ha : a = k
      · subst ha
        simp only [mapSet, beq_self_eq_true, if_true, List.lookup]
        have : (k' == a) = false := by simp [beq_iff_eq, h]
        simp [List.lookup, this, beq_iff_eq, h]
      · simp only [mapSet, beq_iff_eq, ha, if_false, List.lookup]
        by_cases hk : k' = a
        · simp [hk]
        · have h1 : (k' == a) = false := by simp [beq_iff_eq, hk]
          simp [h1, ih]

theorem length_mapSet_le {α : Type} (m : List (String × α)) (k : String)
    (v : α) : (mapSet m k v).length ≤ m.length + 1 := by
  induction m with
  | nil => simp [mapSet]
  | cons p rest ih =>
      obtain ⟨a, b⟩ := p
      by_cases h : a = k
      · simp [mapSet, h]
      · simp [mapSet, h]
        omega

theorem length_mapDelete_le {α : Type} (m : List (String × α))
    (k : String) : (mapDelete m k).length ≤ m.length :=
  List.length_filter_le _ m

theorem lookup_some_any (l : List (String × MetaValue)) (k : String)
    (v : MetaValue) (h : l.lookup k = some v) :
    l.any (fun q => q.1 == k) = true := by
  induction l with
  | nil => simp [List.lookup] at h
  | cons p rest ih =>
      obtain ⟨a, b⟩ := p
      by_cases ha : k = a
      · simp [List.any_cons, beq_iff_eq, ha]
      · have h1 : (k == a) = false := by simp [beq_iff_eq, ha]
        simp only [List.lookup, h1] at h
        simp [List.any_cons, ih h]

theorem lookup_mergeMeta_right (old new : Metadata) (k : String)
    (v : MetaValue) (h : new.lookup k = some v) :
    (mergeMeta old new).lookup k = some v := by
  unfold mergeMeta
  induction old with
  | nil => simpa using h
  | cons p rest ih =>
      by_cases hp : new.any (fun q => q.1 == p.1)
      · have hf :
            List.filter (fun x => !(new.any fun q => q.1 == x.1)) (p :: rest)
              = List.filter (fun x => !(new.any fun q => q.1 == x.1)) rest := by
          simp [List.filter_cons, hp]
        rw [hf]
        exact ih
      · have hk : (k == p.1) = false := by
          rw [beq_eq_false_iff_ne]
          intro e
          subst e
          exact hp (lookup_some_any new p.1 v h)
        have hf :
            List.filter (fun x => !(new.any fun q => q.1 == x.1)) (p :: rest)
              = p :: List.filter (fun x => !(new.any fun q => q.1 == x.1)) rest := by
          simp only [List.filter_cons]
          simp [hp]
        rw [hf]
        simpa [List.lookup, hk] using ih

/-! ## State-machine transition lemmas -/

theorem transition_notFound (m : StateMachine) (workflowId : String)
    (toState : WorkflowState) (md : Option Metadata) (now : Nat)
    (h : m.lookup workflowId = none) :
    transition m workflowId toState md now = .error (.notFound workflowId) := by
  simp [transition, h]

theorem transition_invalid (m : StateMachine) (workflowId : String)
    (toState : WorkflowState) (md : Option Metadata) (now : Nat)
    (run : WorkflowStateData) (h : m.lookup workflowId = some run)
    (hv : validateTransition run.currentState toState = false) :
    transition m workflowId toState md now =
      .error (.invalidTransition workflowId run.currentState toState) := by
  simp [transition, h, hv]

theorem transition_valid (m : StateMachine) (workflowId : String)
    (toState : WorkflowState) (md : Option Metadata) (now : Nat)
    (run : WorkflowStateData) (h : m.lookup workflowId = some run)
    (hv : validateTransition run.currentState toState = true) :
    transition m workflowId toState md now =
      .ok (mapSet m workflowId (appliedTransition run toState md now),
        appliedTransition run toState md now) := by
  simp [transition, h, hv]

/-- Claim C3: `transition` fails with `NotFound` for an untracked id and
with `InvalidTransition` when `validateTransition` rejects the pair (in
the embedding a rejected call returns only the error, so the machine and
the run are the caller's untouched originals, matching the source where
validation precedes every mutation); on success it returns the map with
exactly the one run replaced by a copy whose history gained exactly one
`StateTransition` record, whose previous/current stages are set, whose
metadata is the spread of the supplied metadata over the old one, and
whose `updatedAt` is the new timestamp, while every other id's run is
untouched. -/
theorem C3_transition_spec (m : StateMachine) (workflowId : String)
    (toState : WorkflowState) (md : Option Metadata) (now : Nat) :
    (m.lookup workflowId = none →
      transition m workflowId toState md now =
        .error (.notFound workflowId)) ∧
    (∀ run, m.lookup workflowId = some run →
      validateTransition run.currentState toState = false →
      transition m workflowId toState md now =
        .error (.invalidTransition workflowId run.currentState toState)) ∧
    (∀ run, m.lookup workflowId = some run →
      validateTransition run.currentState toState = true →
      ∃ run',
        transition m workflowId toState md now =
          .ok (mapSet m workflowId run', run') ∧
        run'.history =
          run.history ++
            [{ from' := run.currentState, to' := toState
               timestamp := now, metadata := md }] ∧
        run'.previousState = some run.currentState ∧
        run'.currentState = toState ∧
        run'.updatedAt = now ∧
        run'.metadata =
          (match md with
            | some mm => mergeMeta run.metadata mm
            | none => run.metadata) ∧
        run'.createdAt = run.createdAt ∧
        run'.workflowId = run.workflowId ∧
        (mapSet m workflowId run').lookup workflowId = some run' ∧
        (∀ otherId, otherId ≠ workflowId →
          (mapSet m workflowId run').lookup otherId = m.lookup otherId)) := by
  refine ⟨transition_notFound m workflowId toState md now,
    fun run h hv => transition_invalid m workflowId toState md now run h hv,
    fun run h hv => ⟨appliedTransition run toState md now,
      transition_valid m workflowId toState md now run h hv,
      rfl, rfl, rfl, rfl, rfl, rfl, rfl,
      lookup_mapSet_self m workflowId _,
      fun otherId ho => lookup_mapSet_ne m workflowId otherId _ ho⟩⟩

/-- Witness for C3: the three cases at concrete inputs — an untracked
id, a rejected `complete → pending` move, and an accepted
`pending → bootstrapping` move. -/
theorem C3_witness :
    (transition [] "w" .pending none 0 = .error (.notFound "w")) ∧
    (transition
        [("w", { workflowId := "w", currentState := .complete
                 previousState := none, history := [], createdAt := 0
                 updatedAt := 0, metadata := [] })]
        "w" .pending none 0 =
      .error (.invalidTransition "w" .complete .pending)) ∧
    (∃ run',
      transition
          [("w", { workflowId := "w", currentState := .pending
                   previousState := none, history := [], createdAt := 0
                   updatedAt := 0, metadata := [] })]
          "w" .bootstrapping none 1 =
        .ok (mapSet
          [("w", { workflowId := "w", currentState := .pending
                   previousState := none, history := [], createdAt := 0
                   updatedAt := 0, metadata := [] })] "w" run', run') ∧
      run'.history =
        [] ++
          [{ from' := .pending, to' := .bootstrapping, timestamp := 1
             metadata := none }] ∧
      run'.previousState = some .pending ∧
      run'.currentState = .bootstrapping ∧
      run'.updatedAt = 1 ∧
      run'.metadata = [] ∧
      run'.createdAt = 0 ∧
      run'.workflowId = "w" ∧
      (mapSet
        [("w", { workflowId := "w", currentState := .pending
                 previousState := none, history := [], createdAt := 0
                 updatedAt := 0, metadata := [] })] "w" run').lookup "w" =
        some run' ∧
      (∀ otherId, otherId ≠ "w" →
        (mapSet
          [("w", { workflowId := "w", currentState := .pending
                   previousState := none, history := [], createdAt := 0
                   updatedAt := 0, metadata := [] })] "w" run').lookup
            otherId =
          (List.lookup otherId
            [("w", { workflowId := "w", currentState := .pending
                     previousState := none, history := [], createdAt := 0
                     updatedAt := 0, metadata := [] })]))) := by
  refine ⟨(C3_transition_spec [] "w" .pending none 0).1 (by decide),
    (C3_transition_spec _ "w" .pending none 0).2.1
      { workflowId := "w", currentState := .complete
        previousState := none, history := [], createdAt := 0
        updatedAt := 0, metadata := [] } (by decide) (by decide),
    ?_⟩
  have h :=
    (C3_transition_spec
      [("w", { workflowId := "w", currentState := .pending
               previousState := none, history := [], createdAt := 0
               updatedAt := 0, metadata := [] })]
      "w" .bootstrapping none 1).2.2
      { workflowId := "w", currentState := .pending
        previousState := none, history := [], createdAt := 0
        updatedAt := 0, metadata := [] } (by decide) (by decide)
  obtain ⟨run', h1, h2, h3, h4, h5, h6, h7, h8, h9, h10⟩ := h
  exact ⟨run', h1, h2, h3, h4, h5, h6, h7, h8, h9, h10⟩

/-- Counterexample to claim C2 as stated: on the concrete machine where
`"w"` is already tracked with one recorded transition, a second
`initializeWorkflow` call does not fail at all — it replaces the run,
resetting the recorded history from length 1 to length 0. -/
theorem C2_counterexample :
    let m0 := initWorkflow [] "w" .pending 0
    let m1 :=
      ((transition m0 "w" .bootstrapping none 1).toOption.map (·.1)).getD m0
    ((m1.lookup "w").map (·.history.length) = some 1) ∧
    (((initWorkflow m1 "w" .pending 2).lookup "w").map (·.history.length)
      = some 0) := by
  decide

/-- Claim C2 amended: `initializeWorkflow` performs no already-tracked
check; a second call with an identifier succeeds unconditionally and
replaces the tracked run with a fresh one (the requested initial stage,
empty history, empty metadata, both timestamps set to the call time),
discarding the first run's state. -/
theorem C2_amended (m : StateMachine) (workflowId : String)
    (initialState : WorkflowState) (now : Nat) :
    (initWorkflow m workflowId initialState now).lookup workflowId =
      some
        { workflowId := workflowId, currentState := initialState
          previousState := none, history := [], createdAt := now
          updatedAt := now, metadata := [] } :=
  lookup_mapSet_self m workflowId _

/-! ## History invariants (claim C8) -/

theorem histInv_applied (run : WorkflowStateData) (toState : WorkflowState)
    (md : Option Metadata) (now : Nat) (h : HistInv run) :
    HistInv (appliedTransition run toState md now) := by
  obtain ⟨hchain, hlast⟩ := h
  constructor
  · simp only [appliedTransition]
    rw [List.chain'_append]
    refine ⟨hchain, List.chain'_singleton _, ?_⟩
    intro x hx y hy
    simp only [List.head?_cons, Option.mem_def, Option.some.injEq] at hy
    subst hy
    exact hlast x hx
  · simp only [appliedTransition, List.getLast?_concat, Option.mem_def,
      Option.some.injEq]
    intro t ht
    subst ht
    rfl

theorem applyTargets_spec (workflowId : String)
    (targets : List WorkflowState) :
    ∀ (m : StateMachine) (run : WorkflowStateData),
      m.lookup workflowId = some run → HistInv run →
      ∃ run',
        (applyTargets m workflowId targets).1.lookup workflowId = some run' ∧
        run'.history.length =
          run.history.length + (applyTargets m workflowId targets).2 ∧
        HistInv run' := by
  induction targets with
  | nil =>
      intro m run h hinv
      exact ⟨run, h, by simp [applyTargets], hinv⟩
  | cons t ts ih =>
      intro m run h hinv
      by_cases hv : validateTransition run.currentState t
      · have ht := transition_valid m workflowId t none 0 run h hv
        obtain ⟨run', h1, h2, h3⟩ :=
          ih (mapSet m workflowId (appliedTransition run t none 0))
            (appliedTransition run t none 0)
            (lookup_mapSet_self m workflowId _)
            (histInv_applied run t none 0 hinv)
        refine ⟨run', ?_, ?_, h3⟩
        · simp only [applyTargets, ht]
          exact h1
        · simp only [applyTargets, ht]
          have hlen : (appliedTransition run t none 0).history.length =
              run.history.length + 1 := by
            simp [appliedTransition]
          omega
      · have hvf : validateTransition run.currentState t = false := by
          simpa using hv
        have ht := transition_invalid m workflowId t none 0 run h hvf
        obtain ⟨run', h1, h2, h3⟩ := ih m run h hinv
        refine ⟨run', ?_, ?_, h3⟩
        · simp only [applyTargets, ht]
          exact h1
        · simp only [applyTargets, ht]
          exact h2

/-- Claim C8: starting from a freshly initialized run and any sequence
of requested stage moves, the run's history length equals exactly the
number of transitions that succeeded (each success appends exactly one
record, rejected requests append nothing), and consecutive history
records are linked: `history[i].to = history[i+1].from` for every valid
index. -/
theorem C8_history_chain (workflowId : String) (st : WorkflowState)
    (targets : List WorkflowState) :
    (getHistory
        (applyTargets (initWorkflow [] workflowId st 0) workflowId
          targets).1 workflowId).length =
      (applyTargets (initWorkflow [] workflowId st 0) workflowId
        targets).2 ∧
    List.Chain' (fun a b => a.to' = b.from')
      (getHistory
        (applyTargets (initWorkflow [] workflowId st 0) workflowId
          targets).1 workflowId) := by
  have h0 :
      (initWorkflow [] workflowId st 0).lookup workflowId =
        some
          { workflowId := workflowId, currentState := st
            previousState := none, history := [], createdAt := 0
            updatedAt := 0, metadata := [] } :=
    lookup_mapSet_self [] workflowId _
  have hinv :
      HistInv
        { workflowId := workflowId, currentState := st
          previousState := none, history := [], createdAt := 0
          updatedAt := 0, metadata := [] } := by
    constructor
    · exact List.chain'_nil
    · intro t ht
      simp at ht
  obtain ⟨run', h1, h2, h3⟩ :=
    applyTargets_spec workflowId targets (initWorkflow [] workflowId st 0)
      _ h0 hinv
  constructor
  · simp only [getHistory, h1, Option.map_some', Option.getD_some]
    simpa using h2
  · simp only [getHistory, h1, Option.map_some', Option.getD_some]
    exact h3.1

/-! ## Concurrency ceiling (claim C4) -/

theorem length_stepSpawner_le (s : AgentSpawner) (e : SpawnerEvent)
    (h : s.activeAgents.length ≤ maxConcurrentAgents) :
    (stepSpawner s e).activeAgents.length ≤ maxConcurrentAgents := by
  cases e with
  | spawnEv cfg now rand =>
      by_cases hc : s.activeAgents.length ≥ maxConcurrentAgents
      · simp [stepSpawner, spawnAgent, hc]
        exact h
      · simp only [stepSpawner, spawnAgent, hc, if_false]
        have h1 := length_mapSet_le s.activeAgents
          (generateAgentId cfg now rand)
          { id := generateAgentId cfg now rand, type' := cfg.type'
            startTime := now }
        simp only [maxConcurrentAgents] at hc ⊢
        omega
  | exitEv agentId =>
      exact le_trans (length_mapDelete_le s.activeAgents agentId) h
  | errorEv agentId =>
      exact le_trans (length_mapDelete_le s.activeAgents agentId) h
  | killEv agentId => exact h

theorem foldl_stepSpawner_le (events : List SpawnerEvent) :
    ∀ s : AgentSpawner, s.activeAgents.length ≤ maxConcurrentAgents →
      (events.foldl stepSpawner s).activeAgents.length ≤
        maxConcurrentAgents := by
  induction events with
  | nil => intro s h; simpa using h
  | cons e es ih =>
      intro s h
      simpa using ih (stepSpawner s e) (length_stepSpawner_le s e h)

/-- Claim C4: over any sequence of spawn, exit, error and kill events
starting from an empty supervisor, the number of tracked active handles
never exceeds the fixed ceiling of 10; and a spawn requested while the
active count equals the ceiling fails with the capacity error, returning
no new state (so no handle is registered). -/
theorem C4_concurrency_ceiling :
    (∀ events : List SpawnerEvent,
      (events.foldl stepSpawner { activeAgents := [] }).activeAgents.length
        ≤ maxConcurrentAgents) ∧
    (∀ (s : AgentSpawner) (cfg : AgentConfig) (now : Nat) (rand : String),
      s.activeAgents.length = maxConcurrentAgents →
      spawnAgent s cfg now rand = .error .capacityExceeded) := by
  constructor
  · intro events
    exact foldl_stepSpawner_le events { activeAgents := [] } (by simp)
  · intro s cfg now rand h
    simp [spawnAgent, h]

/-- Witness for C4: a concrete event sequence stays at or below the
ceiling, and a concrete supervisor holding exactly 10 handles rejects
the 11th spawn. -/
theorem C4_witness :
    (([SpawnerEvent.spawnEv
          { type' := "bootstrapper", workflowId := some "w"
            taskId := none, skills := [], mcps := [] } 0 "r",
        SpawnerEvent.exitEv "x"].foldl stepSpawner
        { activeAgents := [] }).activeAgents.length ≤
      maxConcurrentAgents) ∧
    (spawnAgent
        { activeAgents :=
            (List.range 10).map fun i =>
              (toString i,
                { id := toString i, type' := "implementer"
                  startTime := 0 }) }
        { type' := "bootstrapper", workflowId := some "w"
          taskId := none, skills := [], mcps := [] } 0 "r" =
      .error .capacityExceeded) :=
  ⟨C4_concurrency_ceiling.1 _,
    C4_concurrency_ceiling.2 _ _ 0 "r" (by decide)⟩

/-! ## Error-classification claims (C5, C10) -/

theorem calculateBackoff_doubles (a : Nat) :
    calculateBackoff (a + 1) 0 = min (2 * calculateBackoff a 0) 30000 := by
  simp only [calculateBackoff, baseDelay, pow_succ, Nat.add_zero]
  have h : 1000 * (2 ^ a * 2) = 2 * (1000 * 2 ^ a) := by ring
  rw [h]
  rcases le_or_lt (1000 * 2 ^ a) 30000 with hle | hlt
  · omega
  · omega

/-- Claim C5: the classifier returns a `retry` verdict exactly when the
failure text matches a transient signature and the attempt number is
below `maxRetries = 3`; the returned delay is
`min(baseDelay * 2^attempt + jitter, 30000)`; every delay is capped at
30 seconds and (with jitter below one second) stays below the
non-jittered component plus one second; and the non-jittered component
of consecutive delays exactly doubles, capped at 30 seconds. -/
theorem C5_retry_backoff (h : WorkflowErrorHandler) (ctx : ErrorContext)
    (jitter : Nat) (hj : jitter < 1000) :
    ((handleError h ctx jitter).2.strategy = .retry ↔
      (isRecoverableError ctx.errorMessage = true ∧
        ctx.attemptNumber < maxRetries)) ∧
    ((handleError h ctx jitter).2.strategy = .retry →
      (handleError h ctx jitter).2.retryDelay =
        some (min (baseDelay * 2 ^ ctx.attemptNumber + jitter) 30000)) ∧
    calculateBackoff ctx.attemptNumber jitter ≤ 30000 ∧
    calculateBackoff ctx.attemptNumber jitter ≤
      baseDelay * 2 ^ ctx.attemptNumber + 999 ∧
    (∀ a, calculateBackoff (a + 1) 0 =
      min (2 * calculateBackoff a 0) 30000) := by
  refine ⟨?_, ?_, ?_, ?_, calculateBackoff_doubles⟩
  · by_cases hs :
        (isRecoverableError ctx.errorMessage &&
          decide (ctx.attemptNumber < maxRetries)) = true
    · simp only [handleError, hs, if_true]
      simp only [Bool.and_eq_true, decide_eq_true_eq] at hs
      simp [hs]
    · simp only [handleError, hs, if_false]
      simp only [Bool.and_eq_true, decide_eq_true_eq] at hs
      constructor
      · intro hr
        exact absurd hr (by simp)
      · intro hr
        exact absurd hr hs
  · by_cases hs :
        (isRecoverableError ctx.errorMessage &&
          decide (ctx.attemptNumber < maxRetries)) = true
    · simp [handleError, hs, calculateBackoff]
    · intro hr
      simp [handleError, hs] at hr
  · exact Nat.min_le_right _ _
  · calc calculateBackoff ctx.attemptNumber jitter ≤
        baseDelay * 2 ^ ctx.attemptNumber + jitter := Nat.min_le_left _ _
      _ ≤ baseDelay * 2 ^ ctx.attemptNumber + 999 := by omega

/-- Witness for C5: a transient failure message at attempt 1 with
concrete jitter 7 yields a retry verdict with delay
`min(1000 * 2 + 7, 30000) = 2007`. -/
theorem C5_witness :
    (7 : Nat) < 1000 ∧
    ((handleError { errorCounts := [] }
        { workflowId := "w", stage := .implementing
          errorMessage := "connect timeout", attemptNumber := 1
          maxAttempts := 3 } 7).2.strategy = .retry ↔
      (isRecoverableError "connect timeout" = true ∧ 1 < maxRetries)) :=
  ⟨by decide,
    (C5_retry_backoff { errorCounts := [] }
      { workflowId := "w", stage := .implementing
        errorMessage := "connect timeout", attemptNumber := 1
        maxAttempts := 3 } 7 (by decide)).1⟩

/-- Claim C10: every classification result has strategy `retry` or
`block` (never `skip` or `rollback`); the strategy is `retry` exactly
when `shouldRetry` is set; and a `retryDelay` is present exactly when
the strategy is `retry`. -/
theorem C10_strategy_shape (h : WorkflowErrorHandler) (ctx : ErrorContext)
    (jitter : Nat) :
    ((handleError h ctx jitter).2.strategy = .retry ∨
      (handleError h ctx jitter).2.strategy = .block) ∧
    ((handleError h ctx jitter).2.shouldRetry = true ↔
      (handleError h ctx jitter).2.strategy = .retry) ∧
    ((handleError h ctx jitter).2.retryDelay.isSome = true ↔
      (handleError h ctx jitter).2.strategy = .retry) := by
  by_cases hs :
      (isRecoverableError ctx.errorMessage &&
        decide (ctx.attemptNumber < maxRetries)) = true
  · simp [handleError, hs]
  · simp [handleError, hs]

/-! ## Statistics grouping (claim C7) -/

theorem foldl_add_counts (l : List (String × Nat)) :
    ∀ a : Nat, l.foldl (fun s kv => s + kv.2) a = a + (l.map (·.2)).sum := by
  induction l with
  | nil => intro a; simp
  | cons kv rest ih =>
      intro a
      simp only [List.foldl_cons, List.map_cons, List.sum_cons, ih]
      omega

theorem lookup_statStep_foldl (l : List (String × Nat)) :
    ∀ (acc : List (String × Nat)) (g : String),
      (((l.foldl statStep acc).lookup g).getD 0) =
        ((acc.lookup g).getD 0) + groupTotal g l := by
  induction l with
  | nil => intro acc g; simp [groupTotal]
  | cons kv rest ih =>
      intro acc g
      simp only [List.foldl_cons]
      rw [ih (statStep acc kv) g]
      by_cases hg : keyGroup kv.1 = g
      · have h1 : (statStep acc kv).lookup g =
            some (((acc.lookup (keyGroup kv.1)).getD 0) + kv.2) := by
          rw [← hg]
          exact lookup_mapSet_self acc (keyGroup kv.1) _
        have h2 : groupTotal g (kv :: rest) = kv.2 + groupTotal g rest := by
          simp [groupTotal, List.filter_cons, hg]
        rw [h1, h2, hg]
        simp only [Option.getD_some]
        omega
      · have h1 : (statStep acc kv).lookup g = acc.lookup g :=
          lookup_mapSet_ne acc (keyGroup kv.1) g _ (fun e => hg e.symm)
        have h2 : groupTotal g (kv :: rest) = groupTotal g rest := by
          have : (keyGroup kv.1 == g) = false := by
            simp [beq_iff_eq, hg]
          simp [groupTotal, List.filter_cons, this]
        rw [h1, h2]

/-- Counterexample to claim C7 as stated: after one classified failure
for the hyphenated workflow id `"a-b"` at stage `pending`, the
per-(workflow, stage) counter for `"a-b"` is 1, but `getStatistics`
reports no group `"a-b"` at all — the failure is grouped under `"a"`,
the part of the error key before its first hyphen. -/
theorem C7_counterexample :
    let h1 := (handleError { errorCounts := [] }
      { workflowId := "a-b", stage := .pending, errorMessage := "timeout"
        attemptNumber := 0, maxAttempts := 3 } 0).1
    getErrorCount h1 "a-b" .pending = 1 ∧
    (getStatistics h1).1 = 1 ∧
    (getStatistics h1).2.lookup "a-b" = none ∧
    (getStatistics h1).2.lookup "a" = some 1 := by
  decide

/-- Claim C7 amended: `getStatistics` reports the total number of
recorded failures (the sum of every per-(workflow, stage) counter), but
groups failures by the portion of the error key `workflowId-stage`
before its *first* hyphen rather than by the full workflow id: each
group's reported count is the sum of the counters whose keys share that
first hyphen-separated segment, so the claimed per-workflow grouping
only holds for workflow ids containing no hyphen. -/
theorem C7_amended (h : WorkflowErrorHandler) :
    (getStatistics h).1 = (h.errorCounts.map (·.2)).sum ∧
    ∀ g : String,
      (((getStatistics h).2.lookup g).getD 0) = groupTotal g h.errorCounts := by
  constructor
  · simpa using foldl_add_counts h.errorCounts 0
  · intro g
    simpa using lookup_statStep_foldl h.errorCounts [] g

/-! ## Invalid exploration output routes to blocked (claim C9) -/

/-- Claim C9: for any tracked workflow currently in the bootstrapping
stage (the spec's "exploration" stage), `handleBootstrapperCompletion`
with an output failing mandatory-field validation does not advance to
planning: it completes without error, moves the run to `blocked`,
appends exactly the one `bootstrapping → blocked` transition, records
the invalid-output reason (the source string
`'Invalid bootstrapper output'`, which the spec — naming the bootstrap
stage "exploration" — renders as "invalid exploration output") in the
run's metadata, and marks the context blocked with the failure recorded
under `lastFailure`. -/
theorem C9_invalid_output (c : Coordinator) (workflowId : String)
    (ctx : WorkflowContext) (run : WorkflowStateData)
    (output : BootstrapperOutput) (now : Nat) (rand : String)
    (hctx : c.workflowContexts.lookup workflowId = some ctx)
    (hrun : c.stateMachine.lookup workflowId = some run)
    (hstage : run.currentState = .bootstrapping)
    (hbad : validateBootstrapperOutput output = false) :
    ∃ c',
      handleBootstrapperCompletion c workflowId output now rand =
        (c', none) ∧
      ∃ run',
        c'.stateMachine.lookup workflowId = some run' ∧
        run'.currentState = .blocked ∧
        run'.metadata.lookup "reason" =
          some (.str "Invalid bootstrapper output") ∧
        run'.history =
          run.history ++
            [{ from' := .bootstrapping, to' := .blocked, timestamp := now
               metadata :=
                 some
                   [("agentType", .str "bootstrapper"),
                    ("reason", .str "Invalid bootstrapper output"),
                    ("failedAt", .time now)] }] ∧
        ∃ ctx',
          c'.workflowContexts.lookup workflowId = some ctx' ∧
          ctx'.currentStage = .blocked ∧
          ctx'.metadata.lookup "lastFailure" =
            some (.failure "bootstrapper" "Invalid bootstrapper output") := by
  have hv : validateTransition run.currentState .blocked = true := by
    rw [hstage]
    rfl
  have htr := transition_valid c.stateMachine workflowId .blocked
    (some
      [("agentType", .str "bootstrapper"),
       ("reason", .str "Invalid bootstrapper output"),
       ("failedAt", .time now)]) now run hrun hv
  simp only [handleBootstrapperCompletion, hbad, Bool.not_false, if_true,
    handleAgentFailure, smTransition, htr, coordAndThen, hctx]
  refine ⟨_, rfl, appliedTransition run .blocked _ now,
    lookup_mapSet_self _ _ _, rfl, ?_, ?_, ?_⟩
  · exact lookup_mergeMeta_right run.metadata _ "reason" _ rfl
  · simp [appliedTransition, hstage]
  · refine ⟨_, lookup_mapSet_self _ _ _, rfl,
      lookup_mapSet_self ctx.metadata "lastFailure" _⟩

/-- Witness for C9: a concrete coordinator tracking `"w2"` in the
bootstrapping stage, handed the empty bootstrapper output. -/
theorem C9_witness :
    ∃ c',
      handleBootstrapperCompletion
          { stateMachine :=
              [("w2",
                { workflowId := "w2", currentState := .bootstrapping
                  previousState := none, history := [], createdAt := 0
                  updatedAt := 0, metadata := [] })]
            agentSpawner := { activeAgents := [] }
            workflowContexts :=
              [("w2",
                { workflowId := "w2", currentStage := .bootstrapping
                  bootstrapperOutput := none, implementerOutput := none
                  metadata := [] })]
            notionUpdates := [] }
          "w2"
          { codebaseAnalysis := none, workflowSpec := none
            suggestedApproach := none, estimatedComplexity := none }
          5 "r" =
        (c', none) ∧
      ∃ run',
        c'.stateMachine.lookup "w2" = some run' ∧
        run'.currentState = .blocked ∧
        run'.metadata.lookup "reason" =
          some (.str "Invalid bootstrapper output") ∧
        run'.history =
          [] ++
            [{ from' := .bootstrapping, to' := .blocked, timestamp := 5
               metadata :=
                 some
                   [("agentType", .str "bootstrapper"),
                    ("reason", .str "Invalid bootstrapper output"),
                    ("failedAt", .time 5)] }] ∧
        ∃ ctx',
          c'.workflowContexts.lookup "w2" = some ctx' ∧
          ctx'.currentStage = .blocked ∧
          ctx'.metadata.lookup "lastFailure" =
            some (.failure "bootstrapper" "Invalid bootstrapper output") :=
  C9_invalid_output
    { stateMachine :=
        [("w2",
          { workflowId := "w2", currentState := .bootstrapping
            previousState := none, history := [], createdAt := 0
            updatedAt := 0, metadata := [] })]
      agentSpawner := { activeAgents := [] }
      workflowContexts :=
        [("w2",
          { workflowId := "w2", currentStage := .bootstrapping
            bootstrapperOutput := none, implementerOutput := none
            metadata := [] })]
      notionUpdates := [] }
    "w2"
    { workflowId := "w2", currentStage := .bootstrapping
      bootstrapperOutput := none, implementerOutput := none
      metadata := [] }
    { workflowId := "w2", currentState := .bootstrapping
      previousState := none, history := [], createdAt := 0
      updatedAt := 0, metadata := [] }
    { codebaseAnalysis := none, workflowSpec := none
      suggestedApproach := none, estimatedComplexity := none }
    5 "r" (by decide) (by decide) (by decide) (by decide)

/-! ## Coordinator scenarios (claims C6, C1) -/

/-- Claim C6: the happy path for a fresh workflow id — `startWorkflow`
leaves the run in the bootstrapping (spec: "exploration") stage;
`handleBootstrapperCompletion` with all four mandatory fields advances
through the planning pass-through to implementing;
`handleImplementerCompletion` with passing tests advances to complete;
the final history is exactly the four transitions
pending→bootstrapping, bootstrapping→planning, planning→implementing,
implementing→complete, and the final stage is `complete`. -/
theorem C6_happy_path :
    let validOutput : BootstrapperOutput :=
      { codebaseAnalysis := some [("languages", "ts")]
        workflowSpec := some [("goal", "feature")]
        suggestedApproach := some "incremental"
        estimatedComplexity := some "low" }
    let s1 := startWorkflow emptyCoordinator "w1" 1 "r1"
    let s2 := handleBootstrapperCompletion s1.1 "w1" validOutput 2 "r2"
    let s3 := handleImplementerCompletion s2.1 "w1"
      { filesModified := ["a.ts"], testsPassed := true, summary := "done" } 3
    s1.2 = none ∧
    (getState s1.1.stateMachine "w1").map (·.currentState) =
      some .bootstrapping ∧
    s2.2 = none ∧
    (getState s2.1.stateMachine "w1").map (·.currentState) =
      some .implementing ∧
    s3.2 = none ∧
    (getState s3.1.stateMachine "w1").map (·.currentState) =
      some .complete ∧
    (getHistory s3.1.stateMachine "w1").map (fun t => (t.from', t.to')) =
      [(.pending, .bootstrapping), (.bootstrapping, .planning),
        (.planning, .implementing), (.implementing, .complete)] ∧
    (getHistory s3.1.stateMachine "w1").length = 4 := by
  decide

/-- Claim C1, evaluated at the failing input: with `"w3"` blocked after
a test failure, `retryWorkflow("w3", implementing)` does transition the
run from blocked to implementing (so the history ends with a
blocked→implementing record), but then `transitionToImplementing`
unconditionally attempts a second `implementing → implementing`
transition — rejected by the table — so the call rejects with an
invalid-transition error and, contrary to the claim (and to the
source's own comment that the per-stage handler is entered with the
transition already done), no new implementation worker is spawned: the
active-agent count is unchanged. -/
theorem C1_retry_divergence :
    let validOutput : BootstrapperOutput :=
      { codebaseAnalysis := some [("languages", "ts")]
        workflowSpec := some [("goal", "feature")]
        suggestedApproach := some "incremental"
        estimatedComplexity := some "low" }
    let s1 := startWorkflow emptyCoordinator "w3" 1 "r1"
    let s2 := handleBootstrapperCompletion s1.1 "w3" validOutput 2 "r2"
    let s3 := handleImplementerCompletion s2.1 "w3"
      { filesModified := [], testsPassed := false, summary := "red" } 3
    let s4 := retryWorkflow s3.1 "w3" .implementing 4 "r3"
    s3.2 = none ∧
    (getState s3.1.stateMachine "w3").map (·.currentState) =
      some .blocked ∧
    s4.2 = some (.sm (.invalidTransition "w3" .implementing .implementing)) ∧
    s4.1.agentSpawner.activeAgents.length =
      s3.1.agentSpawner.activeAgents.length ∧
    (getState s4.1.stateMachine "w3").map (·.currentState) =
      some .implementing ∧
    ((getHistory s4.1.stateMachine "w3").getLast?.map
        fun t => (t.from', t.to')) =
      some (.blocked, .implementing) := by
  decide

end CodeDiffusion
